import Mathlib

/-!
Verification development for the jwt-ui repository: a shallow embedding of
the token decode/validate engine, the interactive session state machine,
the startup logic of `main`, and the theme-style tables, together with
theorems settling the specification claims.

Source files available: `src/main.rs` and `src/ui/utils.rs`.  The decoder,
validator and key-event dispatcher live in modules (`app/`, `handlers/`)
that are declared in `main.rs` but whose files are not present; those
components are modelled from the specification, as marked on each
definition.
-/

namespace JwtUi

/-- A minimal JSON value type, enough for JWT headers and claims.  Numeric
values are integers (the `exp` claim is seconds since the epoch). -/
inductive Json where
  | null
  | bool (b : Bool)
  | num (n : Int)
  | str (s : String)
  | arr (xs : List Json)
  | obj (fields : List (String × Json))

/-- Look a key up in a JSON object; `none` on any other JSON shape. -/
def Json.lookupKey : Json → String → Option Json
  | .obj fields, k => List.lookup k fields
  | _, _ => none

/-- Decode errors of the token codec (spec §4.1 / §7): wrong segment count,
per-segment base64url failure, per-segment JSON failure. -/
inductive DecodeError where
  | MalformedToken
  | InvalidEncoding (segment : Nat)
  | InvalidJson (segment : Nat)
deriving DecidableEq

/-- Supported HMAC-SHA algorithms. -/
inductive SupportedAlg where
  | HS256
  | HS384
  | HS512
deriving DecidableEq

/-- Algorithm identifier extracted from the header `alg` field: one of the
known enumerated set or `unsupported name` (spec §3). -/
inductive Alg where
  | supported (a : SupportedAlg)
  | unsupported (name : String)
deriving DecidableEq

/-- Modelled from the spec: extraction of the algorithm from the decoded
header (`app/jwt_decoder.rs` is not present).  Reads the `alg` field; a
name outside the HMAC-SHA family, a non-string value or a missing field is
`unsupported`. -/
def algOf (header : Json) : Alg :=
  match header.lookupKey "alg" with
  | some (.str "HS256") => .supported .HS256
  | some (.str "HS384") => .supported .HS384
  | some (.str "HS512") => .supported .HS512
  | some (.str name) => .unsupported name
  | _ => .unsupported ""

/-- Validity outcomes of the token validator (spec §3). -/
inductive Validity where
  | Unverified
  | Valid
  | InvalidSignature
  | Expired
  | UnsupportedAlgorithm
deriving DecidableEq

/-- Structural decode output: header JSON, claims JSON, raw signature
bytes. -/
structure Decoded where
  header : Json
  claims : Json
  signature_raw : List Nat

/-- Splitting a character list on a separator, in the way `split` does:
the empty input yields one empty segment, and every separator occurrence
opens a new segment. -/
def splitChars (sep : Char) : List Char → List (List Char)
  | [] => [[]]
  | ch :: cs =>
    let rest := splitChars sep cs
    if ch = sep then [] :: rest
    else
      match rest with
      | [] => [[ch]]
      | r :: rs => (ch :: r) :: rs

/-- The dot-separated segments of a token string. -/
def splitDot (s : String) : List String :=
  (splitChars '.' s.data).map String.mk

/-- The base64url and JSON codecs the token decoder is built on.  Their
internals are outside the model; the decoder is parametric in them. -/
structure Codecs where
  b64decode : String → Option (List Nat)
  jsonParse : List Nat → Option Json

/-- Modelled from the spec: `decode` of the TokenCodec (spec §4.1;
`app/jwt_decoder.rs` is not present).  Splits on `.`, fails with
`MalformedToken` unless the segment count is exactly 3; base64url-decodes
segments 1 and 2 and parses them as JSON, naming the failing segment;
segment 3 is decoded to raw bytes only. -/
def decode (c : Codecs) (token : String) : Except DecodeError Decoded :=
  match splitDot token with
  | [s1, s2, s3] =>
    match c.b64decode s1 with
    | none => .error (.InvalidEncoding 1)
    | some b1 =>
      match c.jsonParse b1 with
      | none => .error (.InvalidJson 1)
      | some header =>
        match c.b64decode s2 with
        | none => .error (.InvalidEncoding 2)
        | some b2 =>
          match c.jsonParse b2 with
          | none => .error (.InvalidJson 2)
          | some claims =>
            match c.b64decode s3 with
            | none => .error (.InvalidEncoding 3)
            | some sig => .ok ⟨header, claims, sig⟩
  | _ => .error .MalformedToken

/-- The `exp` claim when present and numeric (spec §4.2). -/
def expOf (claims : Json) : Option Int :=
  match claims.lookupKey "exp" with
  | some (.num n) => some n
  | _ => none

/-- A MAC function: algorithm, secret and signing-input bytes to MAC
bytes.  The HMAC internals are outside the model; the validator is
parametric in it. -/
def MacFn : Type := SupportedAlg → String → List Nat → List Nat

/-- Modelled from the spec: `validate` of the TokenValidator (spec §4.2;
`app/jwt_decoder.rs` is not present).  Empty or absent secret is
`Unverified`; an algorithm outside the supported set is
`UnsupportedAlgorithm`; otherwise the MAC over the signing input is
recomputed with the secret and compared against the raw signature bytes,
a mismatch being `InvalidSignature`; on a match a past numeric `exp` claim
is `Expired` and anything else is `Valid`. -/
def validate (mac : MacFn) (header claims : Json)
    (signature_raw signing_input : List Nat)
    (secret : Option String) (now : Int) : Validity :=
  match secret with
  | none => .Unverified
  | some s =>
    if s = "" then .Unverified
    else
      match algOf header with
      | .unsupported _ => .UnsupportedAlgorithm
      | .supported a =>
        if mac a s signing_input = signature_raw then
          match expOf claims with
          | some e => if e < now then .Expired else .Valid
          | none => .Valid
        else .InvalidSignature

/-- The decode/validate outcome consumed by the stdout path and the UI
(spec §3 `DecodeResult`). -/
structure DecodeResult where
  header : Json
  claims : Json
  signature_raw : List Nat
  algorithm : Alg
  validity : Validity

instance : Inhabited DecodeResult :=
  ⟨⟨.obj [], .obj [], [], .unsupported "", .Unverified⟩⟩

/-- The bytes of the original signing input of a token: segment 1 and
segment 2 joined by `.`, as raw bytes (spec §4.2). -/
def signingInput (token : String) : List Nat :=
  (String.intercalate "." ((splitDot token).take 2)).toUTF8.toList.map (·.toNat)

/-- Key events, as classified by `Key::from` in the event module. -/
inductive Key where
  | Char (c : Char)
  | Ctrl (c : Char)
  | Tab
  | Enter
  | Esc
  | Up
  | Down
  | Backspace
deriving DecidableEq

/-- The three tabs of the decoded view (spec §3 `active_tab`). -/
inductive TabRoute where
  | Header
  | Payload
  | Secret
deriving DecidableEq

/-- The input modes of the session (spec §3 `mode`). -/
inductive InputMode where
  | Viewing
  | EditingToken
  | EditingSecret
deriving DecidableEq

/-- Session state of the interactive UI (spec §3 `SessionState`).  The
viewport dimensions are owned by the render loop and play no part in the
dispatcher, so they are not modelled.  `should_quit` is the quit flag the
session loop checks after each handled event (`src/main.rs`). -/
structure SessionState where
  result : Option DecodeResult
  error : String
  mode : InputMode
  active_tab : TabRoute
  scroll : Nat
  input_buffer : String
  token : String
  secret : String
  should_quit : Bool

/-- Modelled from the spec: rendering of a decode error as the
human-readable failure message stored in `SessionState.error`
(spec §7; `app/` is not present).  The per-segment messages name the
failing segment. -/
def decodeErrorMessage : DecodeError → String
  | .MalformedToken => "Malformed token: expected exactly three segments"
  | .InvalidEncoding seg => "Invalid base64url encoding in segment " ++ toString seg
  | .InvalidJson seg => "Invalid JSON in segment " ++ toString seg

/-- Modelled from the spec: committing the edited token buffer
(spec §4.5 `Enter` in `EditingToken`; `handlers/` is not present).
Invokes the codec and validator on the buffer: on success the result is
replaced, the error cleared and the scroll reset; on failure the error
message is set and the previous result is left untouched.  Either way the
mode returns to `Viewing`. -/
def commitToken (c : Codecs) (mac : MacFn) (now : Int) (st : SessionState) :
    SessionState :=
  match decode c st.input_buffer with
  | .error e =>
    { st with error := decodeErrorMessage e, mode := .Viewing, input_buffer := "" }
  | .ok d =>
    { st with
      result := some ⟨d.header, d.claims, d.signature_raw, algOf d.header,
        validate mac d.header d.claims d.signature_raw
          (signingInput st.input_buffer) (some st.secret) now⟩,
      error := "", token := st.input_buffer,
      mode := .Viewing, input_buffer := "", scroll := 0 }

/-- Modelled from the spec: committing the edited secret buffer
(spec §4.5 `Enter` in `EditingSecret`; `handlers/` is not present).  The
secret is replaced and the current token re-decoded and re-validated
under it. -/
def commitSecret (c : Codecs) (mac : MacFn) (now : Int) (st : SessionState) :
    SessionState :=
  let st1 := { st with secret := st.input_buffer }
  match decode c st1.token with
  | .error e =>
    { st1 with error := decodeErrorMessage e, mode := .Viewing, input_buffer := "" }
  | .ok d =>
    { st1 with
      result := some ⟨d.header, d.claims, d.signature_raw, algOf d.header,
        validate mac d.header d.claims d.signature_raw
          (signingInput st1.token) (some st1.secret) now⟩,
      error := "", mode := .Viewing, input_buffer := "", scroll := 0 }

/-- Cyclic successor on the three tabs: Header → Payload → Secret →
Header. -/
def nextTab : TabRoute → TabRoute
  | .Header => .Payload
  | .Payload => .Secret
  | .Secret => .Header

/-- Modelled from the spec: the InputDispatcher state machine
(spec §4.5; `handlers/` is not present).  Key events only; unrecognized
keys in a given mode are no-ops.  The cap of the Down scroll by content
length minus viewport height depends on rendered content and is not
modelled: Down increments the offset, Up decrements it floored at 0. -/
def dispatch (c : Codecs) (mac : MacFn) (now : Int) (key : Key)
    (st : SessionState) : SessionState :=
  match st.mode with
  | .Viewing =>
    match key with
    | .Tab => { st with active_tab := nextTab st.active_tab, scroll := 0 }
    | .Char 'e' =>
      if st.active_tab = .Secret then
        { st with mode := .EditingSecret, input_buffer := st.secret }
      else st
    | .Char 't' => { st with mode := .EditingToken, input_buffer := st.token }
    | .Up => { st with scroll := st.scroll - 1 }
    | .Down => { st with scroll := st.scroll + 1 }
    | _ => st
  | .EditingToken =>
    match key with
    | .Char ch => { st with input_buffer := st.input_buffer.push ch }
    | .Backspace => { st with input_buffer := st.input_buffer.dropRight 1 }
    | .Enter => commitToken c mac now st
    | .Esc => { st with mode := .Viewing, input_buffer := "" }
    | _ => st
  | .EditingSecret =>
    match key with
    | .Char ch => { st with input_buffer := st.input_buffer.push ch }
    | .Backspace => { st with input_buffer := st.input_buffer.dropRight 1 }
    | .Enter => commitSecret c mac now st
    | .Esc => { st with mode := .Viewing, input_buffer := "" }
    | _ => st

/-- Outcome of one iteration of the session loop for a key event: either
the loop exits (`quit`) or continues (`next`) with the resulting state. -/
inductive LoopStep where
  | quit (st : SessionState)
  | next (st : SessionState)

/-- The key-event arm of the session loop in `start_ui`
(`src/main.rs`): Ctrl-C breaks out of the loop before any handler runs;
every other key goes to the key handler, after which the loop exits when
the handler set the quit flag.  Parametric in the handler, exactly as the
loop is: the Ctrl-C check precedes the call. -/
def handleInputEvent (handler : Key → SessionState → SessionState)
    (key : Key) (st : SessionState) : LoopStep :=
  if key = Key.Ctrl 'c' then .quit st
  else
    let st2 := handler key st
    if st2.should_quit then .quit st2 else .next st2

/-- Observable effects of `main` (`src/main.rs`): a line printed to
stdout, or one of the UI resource acquisitions of `start_ui`. -/
inductive Effect where
  | print (line : String)
  | enableRawMode
  | enterAlternateScreen
  | createTerminalBackend
  | runUiLoop
deriving DecidableEq

/-- Process exit: clean success, a panic (the tick-rate gate), or a
propagated terminal I/O error. -/
inductive ExitStatus where
  | success
  | panicked (msg : String)
  | err (msg : String)
deriving DecidableEq

/-- The parsed command line (`Cli` in `src/main.rs`). -/
structure Cli where
  token : Option String
  stdout : Bool
  json : Bool
  tick_rate : Nat
  secret : String

/-- The app-state fields `main` inspects after `decode_jwt_token`: the
error message and the decoder result (`app.data.error`,
`app.data.decoder` in `src/main.rs`). -/
structure AppData where
  error : String
  decoded : Option DecodeResult

/-- What a run of `main` does (`src/main.rs` lines 54–90): the ordered
effects and the exit status.  `decode_jwt_token` and
`print_decoded_token` live in the absent `app/` module, so `main` is
parametric in them; `uiErr` is the outcome of `start_ui` on the
interactive path (`none` = clean).  The tick-rate gate panics before
either path; the stdout path prints exactly one line — the formatted
result when the error is empty and the decoder holds a result, the error
message otherwise — and returns `Ok`. -/
def mainFn (decodeJwtToken : Option String → String → AppData)
    (printDecodedToken : DecodeResult → Bool → String)
    (uiErr : Option String) (cli : Cli) : List Effect × ExitStatus :=
  if 1000 ≤ cli.tick_rate then
    ([], .panicked "Tick rate must be below 1000")
  else if cli.stdout && cli.token.isSome then
    let app := decodeJwtToken cli.token cli.secret
    if app.error = "" && app.decoded.isSome then
      ([.print (printDecodedToken (app.decoded.getD default) cli.json)], .success)
    else
      ([.print app.error], .success)
  else
    match uiErr with
    | none =>
      ([.enableRawMode, .enterAlternateScreen, .createTerminalBackend, .runUiLoop],
        .success)
    | some m =>
      ([.enableRawMode, .enterAlternateScreen, .createTerminalBackend, .runUiLoop],
        .err m)

/-- Terminal colors (`src/ui/utils.rs`). -/
inductive Color where
  | Rgb (r g b : Nat)
deriving DecidableEq

def COLOR_TEAL : Color := .Rgb 35 50 55
def COLOR_CYAN : Color := .Rgb 0 230 230
def COLOR_LIGHT_BLUE : Color := .Rgb 138 196 255
def COLOR_YELLOW : Color := .Rgb 249 229 113
def COLOR_GREEN : Color := .Rgb 72 213 150
def COLOR_RED : Color := .Rgb 249 167 164
def COLOR_ORANGE : Color := .Rgb 255 170 66
def COLOR_WHITE : Color := .Rgb 255 255 255
def COLOR_MAGENTA : Color := .Rgb 139 0 139
def COLOR_GRAY : Color := .Rgb 91 87 87
def COLOR_BLUE : Color := .Rgb 0 82 163
def COLOR_GREEN_DARK : Color := .Rgb 20 97 73
def COLOR_RED_DARK : Color := .Rgb 173 25 20
def COLOR_ORANGE_DARK : Color := .Rgb 184 49 15

/-- A terminal style: optional foreground and background colors (the
modifier bits play no part in the claims). -/
structure Style where
  fg : Option Color := none
  bg : Option Color := none
deriving DecidableEq

/-- `Style::default()`. -/
def Style.base : Style := {}

/-- The `.fg(c)` builder on `Style`. -/
def Style.setFg (s : Style) (c : Color) : Style := { s with fg := some c }

/-- The `.bg(c)` builder on `Style`. -/
def Style.setBg (s : Style) (c : Color) : Style := { s with bg := some c }

/-- The style keys (`Styles` enum in `src/ui/utils.rs`). -/
inductive Styles where
  | Default
  | Logo
  | Failure
  | Warning
  | Success
  | Primary
  | Secondary
  | Help
  | Background
deriving DecidableEq

/-- The theme table (`theme_styles` in `src/ui/utils.rs`): the light and
dark maps, entry for entry; the `BTreeMap` is modelled as its association
list. -/
def theme_styles (light : Bool) : List (Styles × Style) :=
  if light then
    [ (Styles.Default, Style.base.setFg COLOR_GRAY),
      (Styles.Logo, Style.base.setFg COLOR_GREEN_DARK),
      (Styles.Failure, Style.base.setFg COLOR_RED_DARK),
      (Styles.Warning, Style.base.setFg COLOR_ORANGE_DARK),
      (Styles.Success, Style.base.setFg COLOR_GREEN_DARK),
      (Styles.Primary, Style.base.setFg COLOR_BLUE),
      (Styles.Secondary, Style.base.setFg COLOR_MAGENTA),
      (Styles.Help, Style.base.setFg COLOR_BLUE),
      (Styles.Background, (Style.base.setBg COLOR_WHITE).setFg COLOR_GRAY) ]
  else
    [ (Styles.Default, Style.base.setFg COLOR_WHITE),
      (Styles.Logo, Style.base.setFg COLOR_GREEN),
      (Styles.Failure, Style.base.setFg COLOR_RED),
      (Styles.Warning, Style.base.setFg COLOR_ORANGE),
      (Styles.Success, Style.base.setFg COLOR_GREEN),
      (Styles.Primary, Style.base.setFg COLOR_CYAN),
      (Styles.Secondary, Style.base.setFg COLOR_YELLOW),
      (Styles.Help, Style.base.setFg COLOR_LIGHT_BLUE),
      (Styles.Background, (Style.base.setBg COLOR_TEAL).setFg COLOR_WHITE) ]

/-- The lookup each style accessor performs before its `unwrap`
(`theme_styles(light).get(&key)` in `src/ui/utils.rs`). -/
def themeGet (light : Bool) (key : Styles) : Option Style :=
  List.lookup key (theme_styles light)

def style_default (light : Bool) : Option Style := themeGet light .Default
def style_logo (light : Bool) : Option Style := themeGet light .Logo
def style_failure (light : Bool) : Option Style := themeGet light .Failure
def style_warning (light : Bool) : Option Style := themeGet light .Warning
def style_success (light : Bool) : Option Style := themeGet light .Success
def style_primary (light : Bool) : Option Style := themeGet light .Primary
def style_help (light : Bool) : Option Style := themeGet light .Help
def style_secondary (light : Bool) : Option Style := themeGet light .Secondary
def style_main_background (light : Bool) : Option Style := themeGet light .Background

/-! Concrete instances used to exercise the definitions. -/

/-- Codecs that reject every segment: enough to exercise the paths that
never reach base64url or JSON decoding. -/
def trivialCodecs : Codecs := ⟨fun _ => none, fun _ => none⟩

/-- A MAC function that returns `[0]` on every input. -/
def zeroMac : MacFn := fun _ _ _ => [0]

/-- A header whose `alg` field names HS256. -/
def headerHS256 : Json := .obj [("alg", .str "HS256")]

/-- Claims with `exp = 0`. -/
def claimsExp0 : Json := .obj [("exp", .num 0)]

/-- Claims with no `exp` field. -/
def claimsNoExp : Json := .obj []

/-- A `decode_jwt_token` stand-in that leaves no error and no result. -/
def djNone : Option String → String → AppData := fun _ _ => ⟨"", none⟩

/-- A `print_decoded_token` stand-in formatting everything as `""`. -/
def pfEmpty : DecodeResult → Bool → String := fun _ _ => ""

/-- A command line asking for stdout mode with tick rate 1000. -/
def cliTick1000 : Cli := ⟨some "t", true, false, 1000, ""⟩

/-- A command line asking for stdout mode with the default tick rate. -/
def cliTick250 : Cli := ⟨some "t", true, false, 250, ""⟩

/-- A fresh viewing-mode session state. -/
def stViewing : SessionState := ⟨none, "", .Viewing, .Header, 0, "", "", "", false⟩

/-- A session state editing the token, with an undecodable buffer. -/
def stEditing : SessionState :=
  ⟨some default, "old error", .EditingToken, .Header, 0, "abc", "", "", false⟩

/-! Theorems settling the claims. -/

/-- With a non-empty secret, `validate` never answers `Unverified`: every
branch after the secret check produces one of the four computed
outcomes. -/
theorem validate_some_ne_unverified (mac : MacFn) (header claims : Json)
    (sig inp : List Nat) (s : String) (now : Int) (hs : s ≠ "") :
    validate mac header claims sig inp (some s) now ≠ .Unverified := by
  intro h
  simp only [validate] at h
  rw [if_neg hs] at h
  split at h
  · simp at h
  · split at h
    · split at h
      · split at h
        · simp at h
        · simp at h
      · simp at h
    · simp at h

/-- C2: for every header, claims, signature and signing input, `validate`
answers `Unverified` exactly when the secret is absent or empty,
regardless of the signature bytes. -/
theorem validate_unverified_iff (mac : MacFn) (header claims : Json)
    (sig inp : List Nat) (secret : Option String) (now : Int) :
    validate mac header claims sig inp secret now = .Unverified ↔
      (secret = none ∨ secret = some "") := by
  constructor
  · intro h
    match secret with
    | none => exact Or.inl rfl
    | some s =>
      right
      by_cases hs : s = ""
      · rw [hs]
      · exact absurd h (validate_some_ne_unverified mac header claims sig inp s now hs)
  · rintro (rfl | rfl)
    · rfl
    · simp [validate]

/-- C2 witness: `validate` evaluated at a concrete empty secret. -/
theorem validate_unverified_iff_witness :
    validate zeroMac headerHS256 claimsNoExp [0] [] (some "") 0 = .Unverified :=
  (validate_unverified_iff zeroMac headerHS256 claimsNoExp [0] [] (some "") 0).mpr
    (Or.inr rfl)

/-- C3: when the recomputed MAC under a supplied secret and supported
algorithm equals the raw signature bytes, `validate` answers `Valid` when
the `exp` claim is absent or in the future, and `Expired` when it is in
the past — the same signature bytes in all three cases. -/
theorem validate_valid_or_expired (mac : MacFn) (header claims : Json)
    (sig inp : List Nat) (s : String) (now : Int) (a : SupportedAlg)
    (hs : s ≠ "") (halg : algOf header = .supported a)
    (hmac : mac a s inp = sig) :
    (expOf claims = none →
      validate mac header claims sig inp (some s) now = .Valid) ∧
    (∀ e, expOf claims = some e → now < e →
      validate mac header claims sig inp (some s) now = .Valid) ∧
    (∀ e, expOf claims = some e → e < now →
      validate mac header claims sig inp (some s) now = .Expired) := by
  refine ⟨?_, ?_, ?_⟩
  · intro he
    simp only [validate]
    rw [if_neg hs, halg]
    simp [hmac, he]
  · intro e he hfut
    simp only [validate]
    rw [if_neg hs, halg]
    simp [hmac, he, not_lt_of_gt hfut]
  · intro e he hpast
    simp only [validate]
    rw [if_neg hs, halg]
    simp [hmac, he, hpast]

/-- C3 witness: a concrete matching MAC with absent `exp` is `Valid`, and
with `exp = 0` at time 100 is `Expired`. -/
theorem validate_valid_or_expired_witness :
    validate zeroMac headerHS256 claimsNoExp [0] [] (some "k") 100 = .Valid ∧
    validate zeroMac headerHS256 claimsExp0 [0] [] (some "k") 100 = .Expired :=
  ⟨(validate_valid_or_expired zeroMac headerHS256 claimsNoExp [0] [] "k" 100 .HS256
      (by decide) rfl rfl).1 rfl,
   (validate_valid_or_expired zeroMac headerHS256 claimsExp0 [0] [] "k" 100 .HS256
      (by decide) rfl rfl).2.2 0 rfl (by decide)⟩

/-- C4: every input whose dot-split is not exactly three segments decodes
to the `MalformedToken` error, whatever the underlying codecs do. -/
theorem decode_malformed (c : Codecs) (token : String)
    (h : (splitDot token).length ≠ 3) :
    decode c token = .error .MalformedToken := by
  unfold decode
  split
  · rename_i s1 s2 s3 heq
    exact absurd (by simp [heq]) h
  · rfl

/-- C4 witness: `"ab"` has one segment and decodes to `MalformedToken`. -/
theorem decode_malformed_witness :
    (splitDot "ab").length ≠ 3 ∧
      decode trivialCodecs "ab" = .error .MalformedToken :=
  ⟨by decide, decode_malformed trivialCodecs "ab" (by decide)⟩

/-- C5: with `tick_rate ≥ 1000`, `main` panics with the tick-rate message
and performs no effect at all — in particular it acquires no UI resource;
with `tick_rate < 1000` the tick-rate panic never occurs. -/
theorem tick_rate_gate (dj : Option String → String → AppData)
    (pf : DecodeResult → Bool → String) (uiErr : Option String) (cli : Cli) :
    (1000 ≤ cli.tick_rate →
      mainFn dj pf uiErr cli = ([], .panicked "Tick rate must be below 1000")) ∧
    (cli.tick_rate < 1000 →
      ∀ m, (mainFn dj pf uiErr cli).2 ≠ .panicked m) := by
  constructor
  · intro h
    simp [mainFn, h]
  · intro h m
    have hn : ¬ (1000 ≤ cli.tick_rate) := by omega
    unfold mainFn
    rw [if_neg hn]
    split
    · dsimp only
      split <;> simp
    · split <;> simp

/-- C5 witness: tick rate 1000 is a fatal startup error with an empty
effect trace; tick rate 250 does not trip the gate. -/
theorem tick_rate_gate_witness :
    mainFn djNone pfEmpty none cliTick1000 =
      ([], .panicked "Tick rate must be below 1000") ∧
    (mainFn djNone pfEmpty none cliTick250).2 ≠
      .panicked "Tick rate must be below 1000" :=
  ⟨(tick_rate_gate djNone pfEmpty none cliTick1000).1 (by decide),
   (tick_rate_gate djNone pfEmpty none cliTick250).2 (by decide)
     "Tick rate must be below 1000"⟩

/-- Unfolding of the stdout path of `main` once the tick-rate gate and the
stdout/token condition are settled. -/
theorem mainFn_stdout_eq (dj : Option String → String → AppData)
    (pf : DecodeResult → Bool → String) (uiErr : Option String) (cli : Cli)
    (htick : cli.tick_rate < 1000) (hs : cli.stdout = true)
    (ht : cli.token.isSome = true) :
    mainFn dj pf uiErr cli =
      (if (dj cli.token cli.secret).error = "" && (dj cli.token cli.secret).decoded.isSome
       then
        ([.print (pf ((dj cli.token cli.secret).decoded.getD default) cli.json)],
          .success)
       else ([.print (dj cli.token cli.secret).error], .success)) := by
  have hn : ¬ (1000 ≤ cli.tick_rate) := by omega
  unfold mainFn
  rw [if_neg hn, hs]
  simp [ht]

/-- C1 counterexample: with `--stdout`, a token argument, and
`--tick-rate 1000`, the run panics before the stdout path: the exit
status is not success and nothing is printed, so the claim fails as
stated (its two premises hold, its conclusion does not). -/
theorem stdout_contract_counterexample :
    cliTick1000.stdout = true ∧ cliTick1000.token.isSome = true ∧
    (mainFn djNone pfEmpty none cliTick1000).2 ≠ .success ∧
    (mainFn djNone pfEmpty none cliTick1000).1 = [] := by
  refine ⟨rfl, rfl, ?_, rfl⟩
  decide

/-- C1 (amended with the tick-rate premise): when `--stdout` is set, a
token is present and `tick_rate` is below 1000, exactly one line is
printed — the formatted decode result when the error is empty and the
decoder holds a result, the error message otherwise — and the exit status
is success in both cases. -/
theorem stdout_contract (dj : Option String → String → AppData)
    (pf : DecodeResult → Bool → String) (uiErr : Option String) (cli : Cli)
    (htick : cli.tick_rate < 1000) (hs : cli.stdout = true)
    (ht : cli.token.isSome = true) :
    (mainFn dj pf uiErr cli).2 = .success ∧
    ((mainFn dj pf uiErr cli).1).length = 1 ∧
    ((dj cli.token cli.secret).error = "" ∧
        (dj cli.token cli.secret).decoded.isSome = true →
      (mainFn dj pf uiErr cli).1 =
        [.print (pf ((dj cli.token cli.secret).decoded.getD default) cli.json)]) ∧
    (¬ ((dj cli.token cli.secret).error = "" ∧
        (dj cli.token cli.secret).decoded.isSome = true) →
      (mainFn dj pf uiErr cli).1 = [.print (dj cli.token cli.secret).error]) := by
  rw [mainFn_stdout_eq dj pf uiErr cli htick hs ht]
  by_cases hc : (dj cli.token cli.secret).error = "" ∧
      (dj cli.token cli.secret).decoded.isSome = true
  · rw [if_pos (by simp [hc.1, hc.2])]
    refine ⟨rfl, rfl, fun _ => rfl, fun hn => absurd hc hn⟩
  · rw [if_neg (by simpa using hc)]
    refine ⟨rfl, rfl, fun hy => absurd hy hc, fun _ => rfl⟩

/-- C1 witness: a concrete stdout run with tick rate 250 whose decode
left no result prints exactly the (empty) error line and exits
with success. -/
theorem stdout_contract_witness :
    (mainFn djNone pfEmpty none cliTick250).2 = .success ∧
    (mainFn djNone pfEmpty none cliTick250).1 = [.print ""] :=
  ⟨(stdout_contract djNone pfEmpty none cliTick250 (by decide) rfl rfl).1,
   (stdout_contract djNone pfEmpty none cliTick250 (by decide) rfl rfl).2.2.2
     (by simp [djNone])⟩

/-- Three tab advances are the identity on the tab. -/
theorem nextTab_three (t : TabRoute) : nextTab (nextTab (nextTab t)) = t := by
  cases t <;> rfl

/-- C6: in Viewing mode, a Tab event advances `active_tab` cyclically —
Header to Payload to Secret to Header — and three Tab events return
`active_tab` to its starting value. -/
theorem tab_cycle (c : Codecs) (mac : MacFn) (now : Int) (st : SessionState)
    (h : st.mode = .Viewing) :
    nextTab .Header = .Payload ∧ nextTab .Payload = .Secret ∧
    nextTab .Secret = .Header ∧
    (dispatch c mac now .Tab st).active_tab = nextTab st.active_tab ∧
    (dispatch c mac now .Tab
      (dispatch c mac now .Tab (dispatch c mac now .Tab st))).active_tab
      = st.active_tab := by
  refine ⟨rfl, rfl, rfl, ?_, ?_⟩
  · simp [dispatch, h]
  · simp [dispatch, h, nextTab_three]

/-- C6 witness: three Tab presses from a fresh viewing state restore the
Header tab. -/
theorem tab_cycle_witness :
    (dispatch trivialCodecs zeroMac 0 .Tab
      (dispatch trivialCodecs zeroMac 0 .Tab
        (dispatch trivialCodecs zeroMac 0 .Tab stViewing))).active_tab
      = stViewing.active_tab :=
  (tab_cycle trivialCodecs zeroMac 0 stViewing rfl).2.2.2.2

/-- C7: committing an edited token whose decode fails sets the error to
the failure message, leaves the previous result untouched, and returns to
Viewing mode. -/
theorem commit_failed_decode (c : Codecs) (mac : MacFn) (now : Int)
    (st : SessionState) (e : DecodeError)
    (hm : st.mode = .EditingToken) (hd : decode c st.input_buffer = .error e) :
    (dispatch c mac now .Enter st).error = decodeErrorMessage e ∧
    (dispatch c mac now .Enter st).result = st.result ∧
    (dispatch c mac now .Enter st).mode = .Viewing := by
  simp [dispatch, hm, commitToken, hd]

/-- C7 witness: committing the undecodable buffer `"abc"` reports the
malformed-token message and keeps the prior result. -/
theorem commit_failed_decode_witness :
    (dispatch trivialCodecs zeroMac 0 .Enter stEditing).error =
      decodeErrorMessage .MalformedToken ∧
    (dispatch trivialCodecs zeroMac 0 .Enter stEditing).result =
      stEditing.result ∧
    (dispatch trivialCodecs zeroMac 0 .Enter stEditing).mode = .Viewing :=
  commit_failed_decode trivialCodecs zeroMac 0 stEditing .MalformedToken rfl
    (decode_malformed trivialCodecs "abc" (by decide))

/-- C8: a Ctrl-C key event makes the session loop quit with the state
untouched, whatever the key handler would do and whatever mode the state
is in: the handler is never consulted. -/
theorem ctrl_c_quits (handler : Key → SessionState → SessionState)
    (st : SessionState) :
    handleInputEvent handler (.Ctrl 'c') st = .quit st := by
  simp [handleInputEvent]

/-- C10: for both values of the light flag, the theme table holds an
entry for every one of the nine style keys, so each accessor's
lookup-and-unwrap finds a style. -/
theorem theme_styles_total (light : Bool) (s : Styles) :
    (themeGet light s).isSome = true ∧
    (style_default light).isSome = true ∧
    (style_logo light).isSome = true ∧
    (style_failure light).isSome = true ∧
    (style_warning light).isSome = true ∧
    (style_success light).isSome = true ∧
    (style_primary light).isSome = true ∧
    (style_help light).isSome = true ∧
    (style_secondary light).isSome = true ∧
    (style_main_background light).isSome = true := by
  cases light <;> cases s <;>
    exact ⟨rfl, rfl, rfl, rfl, rfl, rfl, rfl, rfl, rfl, rfl⟩

end JwtUi
